import Mathlib

/-!
Shallow embedding of the StreakSocial streak / check-in integrity logic.

The embedding covers:
* the `Goal` / `CheckIn` data model and the `handleCheckInComplete` handler
  (the variant with milestone celebration from `src/unnamed/part_000` /
  `src/unnamed/part_002`, and the older variant from `src/app/App.tsx`);
* the milestone-progress computation of the home screen
  (`src/unnamed/part_002`, with the older formula of `src/unnamed/part_000`);
* the check-in window timer (`updateTimer` in `src/app/App.tsx` /
  `src/unnamed/part_002`);
* a model of the server-side feed ranking (not present in the client source).

Timestamps are modelled as seconds (a `Nat`); a calendar day is `86400`
seconds and `getHours` of the source's `Date` is seconds-of-day divided by
`3600`.  JavaScript number arithmetic on the small integers involved is
exact, except where noted in the doc comment of `milestoneProgress`.
-/

/-- Seconds in one calendar day. -/
def secondsPerDay : Nat := 86400

/-- Seconds in one hour. -/
def secondsPerHour : Nat := 3600

/-- `interface Goal` of the source.  `description?`/`lastCheckIn?`/
`checkedToday?` are optional fields; an absent `checkedToday` is falsy in
every use, so it is modelled as `Bool`. -/
structure Goal where
  id : String
  title : String
  description : Option String
  category : String
  current_streak : Nat
  frequency : String
  lastCheckIn : Option Nat
  checkedToday : Bool
deriving Repr, DecidableEq

/-- `interface CheckIn` of the source. -/
structure CheckIn where
  id : String
  goalId : String
  goalTitle : String
  photoUri : String
  caption : String
  streak : Nat
  timestamp : Nat
deriving Repr, DecidableEq

/-- One entry of the celebration lookup table (emoji, title, message). -/
structure MilestonePayload where
  emoji : String
  title : String
  message : String
deriving Repr, DecidableEq

/-- The `celebrationData` state: `{ milestone: newStreak, ...milestones[newStreak] }`. -/
structure CelebrationData where
  milestone : Nat
  emoji : String
  title : String
  message : String
deriving Repr, DecidableEq

/-- The component state touched by `handleCheckInComplete`:
`goals`, `myCheckIns`, `celebrationData`, `showCelebration`. -/
structure AppState where
  goals : List Goal
  myCheckIns : List CheckIn
  celebrationData : Option CelebrationData
  showCelebration : Bool
deriving Repr, DecidableEq

/-- The static tier-keyed celebration table `milestones` declared inside
`handleCheckInComplete` (`src/unnamed/part_002`, line 3402; the same table,
with mojibake emoji, is at `src/unnamed/part_000`, line 2616).  Keys 7, 21,
30, 50, 100; `milestones[newStreak]` is modelled as an `Option` lookup. -/
def milestonesTable (n : Nat) : Option MilestonePayload :=
  if n = 7 then
    some { emoji := "⭐", title := "Week Warrior!",
           message := "You crushed your first week! Keep the momentum going!" }
  else if n = 21 then
    some { emoji := "🌟", title := "21-Day Habit!",
           message := "Science says habits form in 21 days. This is now part of who you are!" }
  else if n = 30 then
    some { emoji := "🏆", title := "Monthly Master!",
           message := "A full month of consistency! You\x27re in the elite club now!" }
  else if n = 50 then
    some { emoji := "💎", title := "Halfway Century!",
           message := "50 days strong! You\x27re unstoppable!" }
  else if n = 100 then
    some { emoji := "👑", title := "Century Legend!",
           message := "100 days! You\x27ve achieved something truly remarkable!" }
  else none

/-- `handleCheckInComplete` from `src/unnamed/part_000` line 2583 /
`src/unnamed/part_002` line 3369: find the goal (early return if absent),
compute `newStreak = goal.current_streak + 1`, map the goals list setting
`current_streak`, `checkedToday`, `lastCheckIn` on every goal with the given
id, prepend the new `CheckIn` record, then trigger the celebration when
`milestones[newStreak]` exists.  All the `Date` values produced during the
handler are modelled by the single instant `now`. -/
def handleCheckInComplete (s : AppState) (now : Nat)
    (goalId photoUri caption : String) : AppState :=
  match s.goals.find? (fun g => g.id == goalId) with
  | none => s
  | some goal =>
    let newStreak := goal.current_streak + 1
    let goals' := s.goals.map (fun g =>
      if g.id == goalId then
        { g with current_streak := newStreak, checkedToday := true,
                 lastCheckIn := some now }
      else g)
    let newCheckIn : CheckIn :=
      { id := "checkin-" ++ toString now
        goalId := goalId
        goalTitle := goal.title
        photoUri := photoUri
        caption := if caption == "" then
            "Day " ++ toString newStreak ++ "! 💪"
          else caption
        streak := newStreak
        timestamp := now }
    let s1 : AppState :=
      { s with goals := goals', myCheckIns := newCheckIn :: s.myCheckIns }
    match milestonesTable newStreak with
    | some m =>
      { s1 with
          celebrationData := some { milestone := newStreak, emoji := m.emoji,
                                    title := m.title, message := m.message }
          showCelebration := true }
    | none => s1

/-- `handleCheckInComplete` from `src/app/App.tsx` line 1255: the state
update runs first (each matching goal gets `current_streak + 1`), then the
goal is looked up in the (pre-update) `goals` closure; when absent the
handler returns with only the mapped goals list; there is no milestone
celebration in this variant. -/
def handleCheckInCompleteApp (s : AppState) (now : Nat)
    (goalId photoUri caption : String) : AppState :=
  let goals' := s.goals.map (fun g =>
    if g.id == goalId then
      { g with current_streak := g.current_streak + 1, checkedToday := true,
               lastCheckIn := some now }
    else g)
  match s.goals.find? (fun g => g.id == goalId) with
  | none => { s with goals := goals' }
  | some goal =>
    let newCheckIn : CheckIn :=
      { id := "checkin-" ++ toString now
        goalId := goalId
        goalTitle := goal.title
        photoUri := photoUri
        caption := if caption == "" then
            "Day " ++ toString (goal.current_streak + 1) ++ "! 💪"
          else caption
        streak := goal.current_streak + 1
        timestamp := now }
    { s with goals := goals', myCheckIns := newCheckIn :: s.myCheckIns }

/-- The milestone tier list of the home screen progress computation,
`const milestones = [7, 21, 30, 100]` (`src/unnamed/part_002` line 873,
`src/unnamed/part_000` line 442). -/
def milestones : List Nat := [7, 21, 30, 100]

/-- `milestones.find(m => goal.current_streak < m) || 100`: the first tier
strictly above the streak, with `100` when `find` yields `undefined` (all
tier values are truthy, so `||` only fires on `undefined`). -/
def nextMilestone (s : Nat) : Nat :=
  (milestones.find? (fun m => decide (s < m))).getD 100

/-- `milestones.filter(m => goal.current_streak >= m).pop() || 0`: the last
tier at or below the streak, with `0` when `pop` yields `undefined`. -/
def prevMilestone (s : Nat) : Nat :=
  ((milestones.filter (fun m => decide (m ≤ s))).getLast?).getD 0

/-- The milestone-progress computation of the home screen
(`src/unnamed/part_002` lines 872–878):

```
const progressInCurrentTier = goal.current_streak - prevMilestone;
const tierSize = nextMilestone - prevMilestone;
const milestoneProgress = Math.min(100, Math.round((progressInCurrentTier / tierSize) * 100));
```

The JavaScript arithmetic is on IEEE doubles; this embedding maps it to
exact `Nat` arithmetic as follows.
* When `tierSize = 0` (exactly the case `streak ≥ 100`, where both tiers
  are 100): if `progressInCurrentTier = 0` (streak exactly 100) the source
  computes `0/0 = NaN`, and `Math.round` and `Math.min` propagate `NaN`;
  this is modelled as `none`.  Otherwise `p/0 = +∞` and
  `Math.min(100, ∞) = 100`.
* When `tierSize ≠ 0`, `Math.round(x)` (round half towards `+∞`) of the
  exact rational `100·p/t` is `(200·p + t) / (2·t)` in `Nat` division.
  The rational `100·p/t` with `t ∈ {7, 14, 9, 70}` and `0 ≤ p < t` is never
  exactly half way between integers (`200·p = t·(2n+1)` has no solution in
  range), and its distance to the nearest half-integer (at least `1/140`)
  exceeds the floating-point error, so the double computation rounds to the
  same integer. -/
def milestoneProgress (s : Nat) : Option Nat :=
  let next := nextMilestone s
  let prev := prevMilestone s
  let progressInCurrentTier := s - prev
  let tierSize := next - prev
  if tierSize = 0 then
    if progressInCurrentTier = 0 then none else some 100
  else
    some (min 100 ((200 * progressInCurrentTier + tierSize) / (2 * tierSize)))

/-- The older milestone-progress formula of `src/unnamed/part_000` lines
441–445: `prevMilestone > 0 ? 100 : Math.round((goal.current_streak /
nextMilestone) * 100)`.  The rounding in the second branch (only reachable
for `streak < 7`, `nextMilestone = 7`) is modelled exactly as in
`milestoneProgress`. -/
def milestoneProgressLegacy (s : Nat) : Nat :=
  if 0 < prevMilestone s then 100
  else (200 * s + nextMilestone s) / (2 * nextMilestone s)

/-- `now.getHours()` for a timestamp in seconds: the hour of the day. -/
def hoursOf (n : Nat) : Nat := n % secondsPerDay / secondsPerHour

/-- The check-in window test of `updateTimer` (`src/app/App.tsx` line 289,
`src/unnamed/part_002` line 766): `hour >= 8 && hour < 22`. -/
def isCheckInWindow (n : Nat) : Bool :=
  decide (8 ≤ hoursOf n) && decide (hoursOf n < 22)

/-- The closed-window branch of `updateTimer` (`src/app/App.tsx` lines
297–309): `nextWindow` starts from `now`, gets one day added when
`hour >= 22`, then `setHours(8, 0, 0, 0)` moves it to 08:00 of its day;
the result is `nextWindow.getTime() - now.getTime()` (modelled in seconds). -/
def timeUntilNextWindow (n : Nat) : Int :=
  let dayStart := n - n % secondsPerDay
  let nextWindow :=
    if 22 ≤ hoursOf n then dayStart + secondsPerDay + 8 * secondsPerHour
    else dayStart + 8 * secondsPerHour
  (nextWindow : Int) - (n : Int)

/-- A feed entry as ranked by the feed: consistency rate, current streak,
timestamp, and a like count that must not influence the ranking. -/
structure FeedEntry where
  consistencyRate : Nat
  currentStreak : Nat
  timestamp : Nat
  likes : Nat
deriving Repr, DecidableEq

/-- Modelled from the spec: the ordering used by the server-side feed
endpoint (`GET /checkins/feed`), whose implementation is not part of the
client source (`fetchFeed` in `src/unnamed/part_000` only retrieves the
ranked list).  Spec: "entries sorted descending by `consistencyRate`, ties
broken by `currentStreak` descending, further ties by `timestamp`
descending (most recent first)".  `feedRankLE a b` holds when `a` may be
placed at or before `b`. -/
def feedRankLE (a b : FeedEntry) : Bool :=
  decide (b.consistencyRate < a.consistencyRate) ||
    (a.consistencyRate == b.consistencyRate &&
      (decide (b.currentStreak < a.currentStreak) ||
        (a.currentStreak == b.currentStreak &&
          decide (b.timestamp ≤ a.timestamp))))

/-- `feedRankLE` as a relation. -/
def feedRel (a b : FeedEntry) : Prop := feedRankLE a b = true

instance : DecidableRel feedRel := fun a b =>
  inferInstanceAs (Decidable (feedRankLE a b = true))

/-- Modelled from the spec: the feed displayed in ranked order — sorting by
`feedRel`. -/
def sortFeed (l : List FeedEntry) : List FeedEntry :=
  List.insertionSort feedRel l

/-- Replace the like count of a feed entry. -/
def setLikes (e : FeedEntry) (k : Nat) : FeedEntry := { e with likes := k }

/-- Concrete goal used to instantiate the check-in theorems: streak 6,
not yet checked in. -/
def gDemo : Goal :=
  { id := "g1", title := "Run 3x per week", description := none,
    category := "fitness", current_streak := 6, frequency := "daily",
    lastCheckIn := some 0, checkedToday := false }

/-- Concrete app state holding `gDemo`. -/
def sDemo : AppState :=
  { goals := [gDemo], myCheckIns := [], celebrationData := none,
    showCelebration := false }

/-- Concrete goal that has already checked in today (`checkedToday = true`,
last check-in at second 900 of day 0). -/
def gChecked : Goal :=
  { id := "g2", title := "Read 30 minutes", description := none,
    category := "learning", current_streak := 5, frequency := "daily",
    lastCheckIn := some 900, checkedToday := true }

/-- Concrete app state holding `gChecked`. -/
def sChecked : AppState :=
  { goals := [gChecked], myCheckIns := [], celebrationData := none,
    showCelebration := false }

/-- Concrete goal whose last check-in is at hour one of day 0, so that a
check-in on day 3 arrives after two fully skipped calendar days. -/
def gStale : Goal :=
  { id := "g3", title := "Meditate daily", description := none,
    category := "wellness", current_streak := 5, frequency := "daily",
    lastCheckIn := some 3600, checkedToday := false }

/-- Concrete app state holding `gStale`. -/
def sStale : AppState :=
  { goals := [gStale], myCheckIns := [], celebrationData := none,
    showCelebration := false }

/-! ## Helper lemmas -/

lemma mem_milestones_iff (m : Nat) :
    m ∈ milestones ↔ m = 7 ∨ m = 21 ∨ m = 30 ∨ m = 100 := by
  simp [milestones]

lemma nextMilestone_eq (s : Nat) :
    nextMilestone s =
      if s < 7 then 7 else if s < 21 then 21 else if s < 30 then 30 else 100 := by
  by_cases h7 : s < 7
  · rw [if_pos h7]
    unfold nextMilestone milestones
    rw [List.find?_cons_of_pos _ (by simpa using h7)]
    rfl
  · rw [if_neg h7]
    by_cases h21 : s < 21
    · rw [if_pos h21]
      unfold nextMilestone milestones
      rw [List.find?_cons_of_neg _ (by simpa using h7),
          List.find?_cons_of_pos _ (by simpa using h21)]
      rfl
    · rw [if_neg h21]
      by_cases h30 : s < 30
      · rw [if_pos h30]
        unfold nextMilestone milestones
        rw [List.find?_cons_of_neg _ (by simpa using h7),
            List.find?_cons_of_neg _ (by simpa using h21),
            List.find?_cons_of_pos _ (by simpa using h30)]
        rfl
      · rw [if_neg h30]
        by_cases h100 : s < 100
        · unfold nextMilestone milestones
          rw [List.find?_cons_of_neg _ (by simpa using h7),
              List.find?_cons_of_neg _ (by simpa using h21),
              List.find?_cons_of_neg _ (by simpa using h30),
              List.find?_cons_of_pos _ (by simpa using h100)]
          rfl
        · unfold nextMilestone milestones
          rw [List.find?_cons_of_neg _ (by simpa using h7),
              List.find?_cons_of_neg _ (by simpa using h21),
              List.find?_cons_of_neg _ (by simpa using h30),
              List.find?_cons_of_neg _ (by simpa using h100)]
          rfl

lemma prevMilestone_eq (s : Nat) :
    prevMilestone s =
      if s < 7 then 0 else if s < 21 then 7 else if s < 30 then 21
      else if s < 100 then 30 else 100 := by
  unfold prevMilestone milestones
  by_cases h7 : s < 7
  · have e7 : ¬ (7:Nat) ≤ s := by omega
    have e21 : ¬ (21:Nat) ≤ s := by omega
    have e30 : ¬ (30:Nat) ≤ s := by omega
    have e100 : ¬ (100:Nat) ≤ s := by omega
    simp [List.filter_cons, e7, e21, e30, e100, h7]
  · by_cases h21 : s < 21
    · have e7 : (7:Nat) ≤ s := by omega
      have e21 : ¬ (21:Nat) ≤ s := by omega
      have e30 : ¬ (30:Nat) ≤ s := by omega
      have e100 : ¬ (100:Nat) ≤ s := by omega
      simp [List.filter_cons, e7, e21, e30, e100, h7, h21]
    · by_cases h30 : s < 30
      · have e7 : (7:Nat) ≤ s := by omega
        have e21 : (21:Nat) ≤ s := by omega
        have e30 : ¬ (30:Nat) ≤ s := by omega
        have e100 : ¬ (100:Nat) ≤ s := by omega
        simp [List.filter_cons, e7, e21, e30, e100, h7, h21, h30]
      · by_cases h100 : s < 100
        · have e7 : (7:Nat) ≤ s := by omega
          have e21 : (21:Nat) ≤ s := by omega
          have e30 : (30:Nat) ≤ s := by omega
          have e100 : ¬ (100:Nat) ≤ s := by omega
          simp [List.filter_cons, e7, e21, e30, e100, h7, h21, h30, h100]
        · have e7 : (7:Nat) ≤ s := by omega
          have e21 : (21:Nat) ≤ s := by omega
          have e30 : (30:Nat) ≤ s := by omega
          have e100 : (100:Nat) ≤ s := by omega
          simp [List.filter_cons, e7, e21, e30, e100, h7, h21, h30, h100]

/-! ## Claim theorems: milestone progress and tiers -/

/-- Claim C5 (code bug): the milestone progress computation is NOT total on
`[0, 100]`-valued integers — at streak exactly 100 both tiers are 100, the
source divides `0 / 0` and produces `NaN` (modelled as `none`), while the
claim demands `percent = 100` for every `s ≥ 100`.  For `s = 101` the source
computes `1 / 0 = ∞` and `Math.min(100, ∞) = 100`, and in-range streaks such
as 99 stay within `[0, 100]`.  The older formula of `src/unnamed/part_000`
(`milestoneProgressLegacy`) does return 100 at streak 100. -/
theorem milestoneProgress_nan_at_100 :
    milestoneProgress 100 = none ∧
    milestoneProgress 101 = some 100 ∧
    milestoneProgress 99 = some 99 ∧
    milestoneProgressLegacy 100 = 100 := by
  refine ⟨by decide, by decide, by decide, by decide⟩

/-- Claim C6: over the tier list `[7, 21, 30, 100]`, `prevMilestone` is the
largest tier at or below the streak (0 when no tier qualifies) and
`nextMilestone` is the smallest tier strictly above the streak (100 as
ceiling once the streak reaches 100); at streak 0 the computation yields
prevTier 0, nextTier 7, percent 0, and at streak 7 it yields prevTier 7,
nextTier 21, percent 0. -/
theorem milestone_tier_selection :
    (∀ s : Nat,
        ((∀ m ∈ milestones, ¬ m ≤ s) → prevMilestone s = 0) ∧
        ((∃ m ∈ milestones, m ≤ s) →
          prevMilestone s ∈ milestones ∧ prevMilestone s ≤ s ∧
            ∀ m ∈ milestones, m ≤ s → m ≤ prevMilestone s)) ∧
    (∀ s : Nat,
        (s < 100 → nextMilestone s ∈ milestones ∧ s < nextMilestone s ∧
            ∀ m ∈ milestones, s < m → nextMilestone s ≤ m) ∧
        (100 ≤ s → nextMilestone s = 100)) ∧
    (prevMilestone 0 = 0 ∧ nextMilestone 0 = 7 ∧ milestoneProgress 0 = some 0) ∧
    (prevMilestone 7 = 7 ∧ nextMilestone 7 = 21 ∧ milestoneProgress 7 = some 0) := by
  refine ⟨fun s => ⟨?_, ?_⟩, fun s => ⟨?_, ?_⟩, by decide, by decide⟩
  · intro hnone
    have h7 : ¬ (7:Nat) ≤ s := hnone 7 (by decide)
    rw [prevMilestone_eq, if_pos (by omega : s < 7)]
  · rintro ⟨m, hm, hms⟩
    have h7 : (7:Nat) ≤ s := by
      rw [mem_milestones_iff] at hm
      omega
    rw [prevMilestone_eq]
    split_ifs with h1 h2 h3 h4
    · exact absurd h1 (by omega)
    · refine ⟨by decide, by omega, fun x hx hxs => ?_⟩
      rw [mem_milestones_iff] at hx
      omega
    · refine ⟨by decide, by omega, fun x hx hxs => ?_⟩
      rw [mem_milestones_iff] at hx
      omega
    · refine ⟨by decide, by omega, fun x hx hxs => ?_⟩
      rw [mem_milestones_iff] at hx
      omega
    · refine ⟨by decide, by omega, fun x hx hxs => ?_⟩
      rw [mem_milestones_iff] at hx
      omega
  · intro h100
    rw [nextMilestone_eq]
    split_ifs with h1 h2 h3
    · refine ⟨by decide, by omega, fun x hx hxs => ?_⟩
      rw [mem_milestones_iff] at hx
      omega
    · refine ⟨by decide, by omega, fun x hx hxs => ?_⟩
      rw [mem_milestones_iff] at hx
      omega
    · refine ⟨by decide, by omega, fun x hx hxs => ?_⟩
      rw [mem_milestones_iff] at hx
      omega
    · refine ⟨by decide, by omega, fun x hx hxs => ?_⟩
      rw [mem_milestones_iff] at hx
      omega
  · intro h100
    rw [nextMilestone_eq, if_neg (by omega), if_neg (by omega), if_neg (by omega)]

/-- Witness for `milestone_tier_selection` at streak 10: 7 is a tier at or
below 10, so `prevMilestone 10` is a tier, is at most 10, and dominates
every tier at or below 10. -/
theorem milestone_tier_selection_witness :
    prevMilestone 10 ∈ milestones ∧ prevMilestone 10 ≤ 10 ∧
      ∀ m ∈ milestones, m ≤ 10 → m ≤ prevMilestone 10 :=
  (milestone_tier_selection.1 10).2 ⟨7, by decide, by decide⟩

/-! ## Claim theorems: check-in window -/

/-- Claim C7: the check-in window test reports open exactly on the half-open
interval `[08:00, 22:00)` of the day — in seconds of the day, on
`[8 * 3600, 22 * 3600)` — so it is open at exactly 08:00:00 and closed at
exactly 22:00:00. -/
theorem checkin_window_iff :
    (∀ n : Nat, isCheckInWindow n = true ↔
        8 * secondsPerHour ≤ n % secondsPerDay ∧
          n % secondsPerDay < 22 * secondsPerHour) ∧
    isCheckInWindow 28800 = true ∧ isCheckInWindow 79200 = false := by
  refine ⟨fun n => ?_, by decide, by decide⟩
  simp only [isCheckInWindow, hoursOf, secondsPerDay, secondsPerHour,
    Bool.and_eq_true, decide_eq_true_eq]
  omega

/-- Witness for `checkin_window_iff` at second 30000 of the day (08:20). -/
theorem checkin_window_iff_witness :
    isCheckInWindow 30000 = true ↔
      8 * secondsPerHour ≤ 30000 % secondsPerDay ∧
        30000 % secondsPerDay < 22 * secondsPerHour :=
  checkin_window_iff.1 30000

/-- Claim C8: whenever the window is closed, the timer's remaining duration
is exactly the distance to the next window start `T`: the unique smallest
absolute time after `now` whose time of day is 08:00; `T` is 08:00 of the
next day when the hour is at or past 22, and 08:00 of the same day
otherwise (hour before 8). -/
theorem closed_window_time_remaining (n : Nat)
    (h : isCheckInWindow n = false) :
    ∃ T : Nat, n < T ∧ T % secondsPerDay = 8 * secondsPerHour ∧
      (∀ U : Nat, n < U → U % secondsPerDay = 8 * secondsPerHour → T ≤ U) ∧
      timeUntilNextWindow n = (T : Int) - (n : Int) ∧
      (22 ≤ hoursOf n →
        T = (n - n % secondsPerDay) + secondsPerDay + 8 * secondsPerHour) ∧
      (hoursOf n < 8 → T = (n - n % secondsPerDay) + 8 * secondsPerHour) := by
  have hw : ¬ (8 ≤ n % 86400 / 3600 ∧ n % 86400 / 3600 < 22) := by
    intro hc
    have hopen : isCheckInWindow n = true := by
      simp [isCheckInWindow, hoursOf, secondsPerDay, secondsPerHour, hc.1, hc.2]
    rw [h] at hopen
    exact Bool.false_ne_true hopen
  have hhours : hoursOf n = n % 86400 / 3600 := by
    simp [hoursOf, secondsPerDay, secondsPerHour]
  have hday : secondsPerDay = 86400 := rfl
  have hhour : secondsPerHour = 3600 := rfl
  rw [hday, hhour, hhours]
  by_cases h22 : 22 ≤ n % 86400 / 3600
  · refine ⟨n - n % 86400 + 86400 + 8 * 3600, ?_, ?_, ?_, ?_, fun _ => rfl, ?_⟩
    · omega
    · omega
    · intro U hU1 hU2
      omega
    · simp only [timeUntilNextWindow, hoursOf, secondsPerDay, secondsPerHour]
      rw [if_pos h22]
    · intro hc
      omega
  · refine ⟨n - n % 86400 + 8 * 3600, ?_, ?_, ?_, ?_, ?_, fun _ => rfl⟩
    · omega
    · omega
    · intro U hU1 hU2
      omega
    · simp only [timeUntilNextWindow, hoursOf, secondsPerDay, secondsPerHour]
      rw [if_neg h22]
    · intro hc
      exact absurd hc h22

/-- Witness for `closed_window_time_remaining` at second 82800 of day 0
(23:00): the window is closed and the timer counts down to 08:00 of day 1. -/
theorem closed_window_time_remaining_witness :
    isCheckInWindow 82800 = false ∧
    ∃ T : Nat, 82800 < T ∧ T % secondsPerDay = 8 * secondsPerHour ∧
      (∀ U : Nat, 82800 < U → U % secondsPerDay = 8 * secondsPerHour → T ≤ U) ∧
      timeUntilNextWindow 82800 = (T : Int) - ((82800 : Nat) : Int) ∧
      (22 ≤ hoursOf 82800 →
        T = (82800 - 82800 % secondsPerDay) + secondsPerDay + 8 * secondsPerHour) ∧
      (hoursOf 82800 < 8 →
        T = (82800 - 82800 % secondsPerDay) + 8 * secondsPerHour) :=
  ⟨by decide, closed_window_time_remaining 82800 (by decide)⟩

/-! ## Helper lemmas: check-in handler -/

lemma goals_handleCheckInComplete (s : AppState) (now : Nat)
    (gid photo cap : String) (g : Goal)
    (h : s.goals.find? (fun x => x.id == gid) = some g) :
    (handleCheckInComplete s now gid photo cap).goals =
      s.goals.map (fun x =>
        if x.id == gid then
          { x with current_streak := g.current_streak + 1, checkedToday := true,
                   lastCheckIn := some now }
        else x) := by
  simp only [handleCheckInComplete, h]
  cases hm : milestonesTable (g.current_streak + 1) <;> simp [hm]

lemma goals_handleCheckInCompleteApp (s : AppState) (now : Nat)
    (gid photo cap : String) :
    (handleCheckInCompleteApp s now gid photo cap).goals =
      s.goals.map (fun x =>
        if x.id == gid then
          { x with current_streak := x.current_streak + 1, checkedToday := true,
                   lastCheckIn := some now }
        else x) := by
  simp only [handleCheckInCompleteApp]
  cases hm : s.goals.find? (fun x => x.id == gid) <;> simp [hm]

lemma map_if_eq_self {α : Type} (p : α → Bool) (f : α → α) (l : List α)
    (h : ∀ x ∈ l, p x = false) :
    l.map (fun x => if p x then f x else x) = l := by
  induction l with
  | nil => rfl
  | cons a t ih =>
    have ha := h a (List.mem_cons_self a t)
    simp [ha, ih (fun x hx => h x (List.mem_cons_of_mem a hx))]

lemma milestonesTable_of_mem (n : Nat)
    (h : n ∈ ([7, 21, 30, 50, 100] : List Nat)) :
    ∃ m, milestonesTable n = some m := by
  fin_cases h <;> exact ⟨_, rfl⟩

lemma milestonesTable_of_not_mem (n : Nat)
    (h : n ∉ ([7, 21, 30, 50, 100] : List Nat)) :
    milestonesTable n = none := by
  have h7 : n ≠ 7 := by intro e; exact h (by simp [e])
  have h21 : n ≠ 21 := by intro e; exact h (by simp [e])
  have h30 : n ≠ 30 := by intro e; exact h (by simp [e])
  have h50 : n ≠ 50 := by intro e; exact h (by simp [e])
  have h100 : n ≠ 100 := by intro e; exact h (by simp [e])
  simp [milestonesTable, h7, h21, h30, h50, h100]

/-! ## Claim theorems: check-in handler -/

/-- Claim C1: a check-in on a goal present in the list (the `find` succeeds
with goal `g`) rewrites every goal carrying the checked-in id to have
`current_streak = g.current_streak + 1` (an increment by exactly 1 for the
found goal), `checkedToday = true`, and `lastCheckIn = now`, and leaves all
other goals untouched — in both handler variants (`src/unnamed/part_000` /
`src/unnamed/part_002` and `src/app/App.tsx`). -/
theorem checkin_increments_streak (s : AppState) (now : Nat)
    (gid photo cap : String) (g : Goal)
    (h : s.goals.find? (fun x => x.id == gid) = some g) :
    g.id = gid ∧ g ∈ s.goals ∧
    ((handleCheckInComplete s now gid photo cap).goals.length = s.goals.length ∧
      ∀ i (hi : i < s.goals.length)
        (hi2 : i < (handleCheckInComplete s now gid photo cap).goals.length),
        ((s.goals.get ⟨i, hi⟩).id = gid →
          (handleCheckInComplete s now gid photo cap).goals.get ⟨i, hi2⟩ =
            { s.goals.get ⟨i, hi⟩ with
                current_streak := g.current_streak + 1, checkedToday := true,
                lastCheckIn := some now }) ∧
        ((s.goals.get ⟨i, hi⟩).id ≠ gid →
          (handleCheckInComplete s now gid photo cap).goals.get ⟨i, hi2⟩ =
            s.goals.get ⟨i, hi⟩)) ∧
    ((handleCheckInCompleteApp s now gid photo cap).goals.length = s.goals.length ∧
      ∀ i (hi : i < s.goals.length)
        (hi2 : i < (handleCheckInCompleteApp s now gid photo cap).goals.length),
        ((s.goals.get ⟨i, hi⟩).id = gid →
          (handleCheckInCompleteApp s now gid photo cap).goals.get ⟨i, hi2⟩ =
            { s.goals.get ⟨i, hi⟩ with
                current_streak := (s.goals.get ⟨i, hi⟩).current_streak + 1,
                checkedToday := true, lastCheckIn := some now }) ∧
        ((s.goals.get ⟨i, hi⟩).id ≠ gid →
          (handleCheckInCompleteApp s now gid photo cap).goals.get ⟨i, hi2⟩ =
            s.goals.get ⟨i, hi⟩)) := by
  have hid : g.id = gid := by
    have := List.find?_some h
    simpa using this
  have hmem : g ∈ s.goals := List.mem_of_find?_eq_some h
  have hg := goals_handleCheckInComplete s now gid photo cap g h
  have hgApp := goals_handleCheckInCompleteApp s now gid photo cap
  refine ⟨hid, hmem, ⟨?_, ?_⟩, ?_, ?_⟩
  · rw [hg, List.length_map]
  · intro i hi hi2
    constructor
    · intro hidi
      simp only [List.get_eq_getElem] at hidi ⊢
      simp [hg, List.getElem_map, hidi]
    · intro hidi
      have : ((s.goals.get ⟨i, hi⟩).id == gid) = false := by
        simpa using hidi
      simp only [List.get_eq_getElem] at this ⊢
      simp only [hg, List.getElem_map, this, Bool.false_eq_true, if_false]
  · rw [hgApp, List.length_map]
  · intro i hi hi2
    constructor
    · intro hidi
      simp only [List.get_eq_getElem] at hidi ⊢
      simp [hgApp, List.getElem_map, hidi]
    · intro hidi
      have : ((s.goals.get ⟨i, hi⟩).id == gid) = false := by
        simpa using hidi
      simp only [List.get_eq_getElem] at this ⊢
      simp only [hgApp, List.getElem_map, this, Bool.false_eq_true, if_false]

/-- Witness for `checkin_increments_streak`: checking in on `gDemo` (id
`"g1"`, streak 6) keeps one goal in the list. -/
theorem checkin_increments_streak_witness :
    sDemo.goals.find? (fun x => x.id == "g1") = some gDemo ∧
    (handleCheckInComplete sDemo 1000 "g1" "photo" "").goals.length =
      sDemo.goals.length := by
  refine ⟨by decide, ?_⟩
  exact (checkin_increments_streak sDemo 1000 "g1" "photo" "" gDemo
    (by decide)).2.2.1.1

/-- Claim C2 (code bug): the handler has no `checkedToday` guard and no
`AlreadyCheckedInToday` error — applying it to a goal whose `checkedToday`
is already `true` (last check-in at second 900 of the same day) increments
the streak a second time, from 5 to 6, instead of rejecting the check-in
and leaving the streak at 5. -/
theorem checkin_double_increment :
    gChecked.checkedToday = true ∧
    sChecked.goals.map Goal.current_streak = [5] ∧
    (handleCheckInComplete sChecked 1000 "g2" "photo" "c").goals.map
      Goal.current_streak = [6] := by
  refine ⟨by decide, by decide, by decide⟩

/-- Claim C4 (code bug): the handler never resets a streak.  `gStale` last
checked in at second 3600 of day 0 and checks in again at second 0 of day 3
— more than one full calendar day elapsed with no intervening check-in —
yet its streak is incremented from 5 to 6 instead of being reset to 1. -/
theorem checkin_no_reset_after_gap :
    gStale.lastCheckIn = some 3600 ∧
    (259200 : Nat) / secondsPerDay - 3600 / secondsPerDay = 3 ∧
    sStale.goals.map Goal.current_streak = [5] ∧
    (handleCheckInComplete sStale 259200 "g3" "photo" "c").goals.map
      Goal.current_streak = [6] := by
  refine ⟨by decide, by decide, by decide, by decide⟩

/-- Claim C3: after a check-in on a found goal `g`, the celebration fires
if and only if the new streak `g.current_streak + 1` is exactly one of the
tiers 7, 21, 30, 50, 100: on a tier, `celebrationData` becomes the payload
of the static tier-keyed table together with the tier and
`showCelebration` becomes true; off a tier (e.g. a streak landing on 8, or
on 22 before 30), both fields are left exactly as they were. -/
theorem checkin_milestone_iff (s : AppState) (now : Nat)
    (gid photo cap : String) (g : Goal)
    (h : s.goals.find? (fun x => x.id == gid) = some g) :
    ((g.current_streak + 1 ∈ ([7, 21, 30, 50, 100] : List Nat)) →
        ∃ m, milestonesTable (g.current_streak + 1) = some m ∧
          (handleCheckInComplete s now gid photo cap).celebrationData =
            some { milestone := g.current_streak + 1, emoji := m.emoji,
                   title := m.title, message := m.message } ∧
          (handleCheckInComplete s now gid photo cap).showCelebration = true) ∧
    ((g.current_streak + 1 ∉ ([7, 21, 30, 50, 100] : List Nat)) →
        (handleCheckInComplete s now gid photo cap).celebrationData =
          s.celebrationData ∧
        (handleCheckInComplete s now gid photo cap).showCelebration =
          s.showCelebration) := by
  constructor
  · intro hmem
    obtain ⟨m, hm⟩ := milestonesTable_of_mem _ hmem
    refine ⟨m, hm, ?_, ?_⟩ <;> simp [handleCheckInComplete, h, hm]
  · intro hmem
    have hm := milestonesTable_of_not_mem _ hmem
    constructor <;> simp [handleCheckInComplete, h, hm]

/-- Witness for `checkin_milestone_iff`: checking in on `gDemo` takes the
streak from 6 to 7, which is a tier, so the Week Warrior celebration is
stored and shown. -/
theorem checkin_milestone_iff_witness :
    sDemo.goals.find? (fun x => x.id == "g1") = some gDemo ∧
    (∃ m, milestonesTable (gDemo.current_streak + 1) = some m ∧
      (handleCheckInComplete sDemo 1000 "g1" "photo" "").celebrationData =
        some { milestone := gDemo.current_streak + 1, emoji := m.emoji,
               title := m.title, message := m.message } ∧
      (handleCheckInComplete sDemo 1000 "g1" "photo" "").showCelebration =
        true) := by
  refine ⟨by decide, ?_⟩
  exact (checkin_milestone_iff sDemo 1000 "g1" "photo" "" gDemo
    (by decide)).1 (by decide)

/-- Claim C10: a check-in whose goal id matches no goal is a no-op in both
handler variants: the returned state equals the input state — no goal is
mutated, no `CheckIn` is prepended, and the celebration fields are
untouched.  (In the `App.tsx` variant the goals list is mapped before the
early return, but the map fixes every element when no id matches.) -/
theorem checkin_unknown_goal_noop (s : AppState) (now : Nat)
    (gid photo cap : String)
    (h : s.goals.find? (fun x => x.id == gid) = none) :
    handleCheckInComplete s now gid photo cap = s ∧
    handleCheckInCompleteApp s now gid photo cap = s := by
  have hall : ∀ x ∈ s.goals, (x.id == gid) = false := by
    intro x hx
    simpa using List.find?_eq_none.mp h x hx
  constructor
  · simp [handleCheckInComplete, h]
  · simp only [handleCheckInCompleteApp, h]
    rw [map_if_eq_self _ _ _ hall]

/-- Witness for `checkin_unknown_goal_noop`: checking in with the unknown
id `"nope"` leaves `sDemo` unchanged. -/
theorem checkin_unknown_goal_noop_witness :
    sDemo.goals.find? (fun x => x.id == "nope") = none ∧
    handleCheckInComplete sDemo 1000 "nope" "photo" "" = sDemo := by
  refine ⟨by decide, ?_⟩
  exact (checkin_unknown_goal_noop sDemo 1000 "nope" "photo" "" (by decide)).1

/-! ## Helper lemmas: feed ranking -/

lemma feedRankLE_iff (a b : FeedEntry) :
    feedRankLE a b = true ↔
      (b.consistencyRate < a.consistencyRate ∨
        (a.consistencyRate = b.consistencyRate ∧
          (b.currentStreak < a.currentStreak ∨
            (a.currentStreak = b.currentStreak ∧ b.timestamp ≤ a.timestamp)))) := by
  simp [feedRankLE, Bool.or_eq_true, Bool.and_eq_true, beq_iff_eq]

instance : IsTotal FeedEntry feedRel :=
  ⟨by
    intro a b
    unfold feedRel
    rw [feedRankLE_iff, feedRankLE_iff]
    omega⟩

instance : IsTrans FeedEntry feedRel :=
  ⟨by
    intro a b c hab hbc
    unfold feedRel at hab hbc ⊢
    rw [feedRankLE_iff] at hab hbc ⊢
    omega⟩

lemma orderedInsert_map_setLikes (k : FeedEntry → Nat) (a : FeedEntry)
    (l : List FeedEntry) :
    List.orderedInsert feedRel (setLikes a (k a))
        (l.map (fun e => setLikes e (k e))) =
      (List.orderedInsert feedRel a l).map (fun e => setLikes e (k e)) := by
  induction l with
  | nil => rfl
  | cons b t ih =>
    by_cases hab : feedRel a b
    · have hab2 : feedRel (setLikes a (k a)) (setLikes b (k b)) := hab
      simp [List.orderedInsert, hab, hab2]
    · have hab2 : ¬ feedRel (setLikes a (k a)) (setLikes b (k b)) := hab
      simp [List.orderedInsert, hab, hab2, ih]

lemma sortFeed_map_setLikes (k : FeedEntry → Nat) (l : List FeedEntry) :
    sortFeed (l.map (fun e => setLikes e (k e))) =
      (sortFeed l).map (fun e => setLikes e (k e)) := by
  induction l with
  | nil => rfl
  | cons a t ih =>
    simp only [List.map_cons, sortFeed, List.insertionSort] at ih ⊢
    rw [ih]
    exact orderedInsert_map_setLikes k a (List.insertionSort feedRel t)

/-- Claim C9 (spec-modelled): the displayed feed order sorts entries by
`feedRel` — descending consistency rate, ties by current streak descending,
remaining ties by timestamp descending — the sort permutes the input, the
comparison never reads the like count (replacing every like count commutes
with sorting), and the three-entry example with rates 90/70/70 and streaks
5/10/3 comes out in exactly that order even though the lowest-ranked entry
has the most likes. -/
theorem feed_ranking_spec :
    (∀ l : List FeedEntry, List.Sorted feedRel (sortFeed l)) ∧
    (∀ l : List FeedEntry, (sortFeed l).Perm l) ∧
    (∀ (a b : FeedEntry) (la lb : Nat),
        feedRankLE (setLikes a la) (setLikes b lb) = feedRankLE a b) ∧
    (∀ (k : FeedEntry → Nat) (l : List FeedEntry),
        sortFeed (l.map (fun e => setLikes e (k e))) =
          (sortFeed l).map (fun e => setLikes e (k e))) ∧
    sortFeed
        [{ consistencyRate := 70, currentStreak := 3, timestamp := 300, likes := 999 },
         { consistencyRate := 90, currentStreak := 5, timestamp := 100, likes := 0 },
         { consistencyRate := 70, currentStreak := 10, timestamp := 200, likes := 50 }] =
      [{ consistencyRate := 90, currentStreak := 5, timestamp := 100, likes := 0 },
       { consistencyRate := 70, currentStreak := 10, timestamp := 200, likes := 50 },
       { consistencyRate := 70, currentStreak := 3, timestamp := 300, likes := 999 }] :=
  ⟨fun l => List.sorted_insertionSort feedRel l,
   fun l => List.perm_insertionSort feedRel l,
   fun _ _ _ _ => rfl,
   sortFeed_map_setLikes,
   by decide⟩
